import Mathlib

/-!
# Sequence properties dialog (`Code/Editor/TrackView/TVSequenceProps.cpp`)

A shallow embedding of `CTVSequenceProps`: the dialog state (widgets and
members), the sequence it edits, the operations the dialog invokes on its
collaborators (kept as a call log), and the member functions `OnInitDialog`,
`UpdateSequenceProps`, `AreSequencePropsChanged`, `OnOK`,
`ToggleCutsceneOptions`, `OnBnClickedToFrames` and `OnBnClickedToSeconds`.

Times are exact rationals standing for the `float`/`double` values of the
source; flag words are integers with the two's complement bit operations.
`UpdateSequencePropsWith` is `UpdateSequenceProps` with the rounding of the
`float` operations left open.
-/

namespace TVSequenceProps

/-! ## Data model -/

/-- Text of a `QString`, as its sequence of characters. -/
abbrev QString := List Char

/-- The type `Range` of a sequence's time range: `start` and `end`, in seconds. -/
structure Range where
  start : ℚ
  end_ : ℚ
deriving DecidableEq, Repr

/-- The comparison `Range::operator==` used at lines 127 and 144: both ends equal. -/
def Range.beq (a b : Range) : Bool :=
  decide (a.start = b.start) && decide (a.end_ = b.end_)

/-- The constants of `IAnimSequence::EAnimSequenceFlags` that the dialog uses. -/
inductive EAnimSequenceFlags where
  | eSeqFlags_PlayOnReset
  | eSeqFlags_OutOfRangeConstant
  | eSeqFlags_OutOfRangeLoop
  | eSeqFlags_CutScene
  | eSeqFlags_NoPlayer
  | eSeqFlags_NoGameSounds
  | eSeqFlags_NoSeek
  | eSeqFlags_NoAbort
  | eSeqFlags_EarlyMovieUpdate
  | eSeqFlags_DisplayAsFramesOrSeconds
deriving DecidableEq, Repr, Fintype

open EAnimSequenceFlags

/-- The values of the enumeration are declared outside this file, so the layout
is a parameter: constant `c` is the single bit `BIT (F c)`. -/
abbrev SeqFlagBits := EAnimSequenceFlags → Nat

/-- The ten flags the dialog manages are distinct bits. -/
def SeqFlagBits.Distinct (F : SeqFlagBits) : Prop := Function.Injective F

instance (F : SeqFlagBits) : Decidable F.Distinct := by
  unfold SeqFlagBits.Distinct; infer_instance

/-- A layout of ten distinct bits, used to evaluate the dialog on concrete inputs. -/
def sampleBits : SeqFlagBits
  | eSeqFlags_PlayOnReset => 0
  | eSeqFlags_OutOfRangeConstant => 1
  | eSeqFlags_OutOfRangeLoop => 2
  | eSeqFlags_CutScene => 3
  | eSeqFlags_NoPlayer => 5
  | eSeqFlags_NoGameSounds => 9
  | eSeqFlags_NoSeek => 10
  | eSeqFlags_NoAbort => 11
  | eSeqFlags_EarlyMovieUpdate => 15
  | eSeqFlags_DisplayAsFramesOrSeconds => 18

/-- The mask `BIT(k)`. -/
def BIT (k : Nat) : Int := 2 ^ k

/-- The test `flags & mask` converted to `bool`, as `setChecked` and `if` receive it. -/
def hasFlag (flags mask : Int) : Bool := decide (Int.land flags mask ≠ 0)

/-- The sequence behind `m_pSequence`: its name, flag word and time range (seconds). -/
structure Sequence where
  name : QString
  flags : Int
  timeRange : Range
deriving DecidableEq, Repr

/-- The member `m_timeUnit`. -/
inductive TimeUnit where
  | Seconds
  | Frames
deriving DecidableEq, Repr

/-- A `QDoubleSpinBox` as far as the dialog uses it: the displayed value, the
bounds set by `setRange` and the step set by `setSingleStep`. The number of
decimals the widget displays is a property of the form file and is not modelled. -/
structure QDoubleSpinBox where
  value : ℚ
  minimum : ℚ
  maximum : ℚ
  singleStep : ℚ
deriving DecidableEq, Repr

/-- The call `QDoubleSpinBox::setValue`: the value is bounded to `[minimum, maximum]`. -/
def QDoubleSpinBox.setValue (v : ℚ) (b : QDoubleSpinBox) : QDoubleSpinBox :=
  { b with value := max b.minimum (min b.maximum v) }

/-- The call `QDoubleSpinBox::setRange`: a maximum below the minimum becomes the minimum,
and the current value is bounded again. -/
def QDoubleSpinBox.setRange (lo hi : ℚ) (b : QDoubleSpinBox) : QDoubleSpinBox :=
  let b1 := { b with minimum := lo, maximum := if lo < hi then hi else lo }
  b1.setValue b1.value

/-- The call `QDoubleSpinBox::setSingleStep`. -/
def QDoubleSpinBox.setSingleStep (v : ℚ) (b : QDoubleSpinBox) : QDoubleSpinBox :=
  { b with singleStep := v }

/-- The state of the dialog: the widgets of `ui` read or written by the source
(named as in the source) and the members `m_FPS`, `m_outOfRange`, `m_timeUnit`.
`accepted` records that `accept()` closed the dialog. -/
structure CTVSequenceProps where
  NAME : QString
  ALWAYS_PLAY : Bool
  CUT_SCENE : Bool
  DISABLEPLAYER : Bool
  DISABLESOUNDS : Bool
  NOSEEK : Bool
  NOABORT : Bool
  EARLYMOVIEUPDATE : Bool
  NOABORT_enabled : Bool
  DISABLEPLAYER_enabled : Bool
  DISABLESOUNDS_enabled : Bool
  MOVE_SCALE_KEYS : Bool
  START_TIME : QDoubleSpinBox
  END_TIME : QDoubleSpinBox
  TO_SECONDS : Bool
  TO_FRAMES : Bool
  ORT_ONCE : Bool
  ORT_CONSTANT : Bool
  ORT_LOOP : Bool
  m_FPS : ℚ
  m_outOfRange : Int
  m_timeUnit : TimeUnit
  accepted : Bool
deriving DecidableEq, Repr

/-- Operations the dialog invokes on its collaborators, in the order of invocation. -/
inductive Call where
  | AdjustKeysToTimeRange (r : Range)
  | SetTimeRange (r : Range)
  | UpdateTimeRange
  | RenameNode (name : QString)
  | SetFlags (flags : Int)
  | warning (title text : String)
  | ScopedUndoBatch (label : String)
  | MarkEntityDirty
deriving DecidableEq, Repr

/-- The dialog together with what it acts on: the sequence `*m_pSequence`
(the constructor asserts the pointer and dereferences it, so it is never null),
whether `GetIEditor()->GetAnimation()` is non-null, and the log of calls made. -/
structure State where
  seq : Sequence
  ui : CTVSequenceProps
  hasAnimationContext : Bool
  calls : List Call
deriving DecidableEq, Repr

/-! ## Collaborators -/

/-- Modelled from the spec: `CTrackViewSequence::AdjustKeysToTimeRange`, the
key-rescale operation of the sequence entity ("adjust keys to new range"): the
sequence takes the new range; the keys themselves are not part of the model. -/
def State.AdjustKeysToTimeRange (r : Range) (s : State) : State :=
  { s with seq := { s.seq with timeRange := r }
           calls := s.calls ++ [Call.AdjustKeysToTimeRange r] }

/-- Modelled from the spec: `CTrackViewSequence::SetTimeRange`, the plain range
set of the sequence entity. -/
def State.SetTimeRange (r : Range) (s : State) : State :=
  { s with seq := { s.seq with timeRange := r }
           calls := s.calls ++ [Call.SetTimeRange r] }

/-- Modelled from the spec: `CAnimationContext::UpdateTimeRange`, the
notification that refreshes the global time-range cache. -/
def State.UpdateTimeRange (s : State) : State :=
  { s with calls := s.calls ++ [Call.UpdateTimeRange] }

/-- Modelled from the spec: `CTrackViewSequenceManager::RenameNode`, the external
rename operation: the sequence takes the new name. -/
def State.RenameNode (name : QString) (s : State) : State :=
  { s with seq := { s.seq with name := name }
           calls := s.calls ++ [Call.RenameNode name] }

/-- Modelled from the spec: `CTrackViewSequence::SetFlags`, which sets the
entity's flag bitmask. -/
def State.SetFlags (flags : Int) (s : State) : State :=
  { s with seq := { s.seq with flags := flags }
           calls := s.calls ++ [Call.SetFlags flags] }

/-- A call that only leaves a trace: `QMessageBox::warning`, the constructor of
`ScopedUndoBatch`, `MarkEntityDirty`. -/
def State.log (c : Call) (s : State) : State :=
  { s with calls := s.calls ++ [c] }

/-! ## Member functions of the dialog -/

/-- Member function `CTVSequenceProps::ToggleCutsceneOptions` (lines 294-306). -/
def ToggleCutsceneOptions (bActivated : Bool) (d : CTVSequenceProps) : CTVSequenceProps :=
  let d :=
    if bActivated = false then
      { d with NOABORT := false, DISABLEPLAYER := false, DISABLESOUNDS := false }
    else d
  { d with NOABORT_enabled := bActivated
           DISABLEPLAYER_enabled := bActivated
           DISABLESOUNDS_enabled := bActivated }

/-- The function `std::round`: to the nearest integer, halves away from zero. -/
def std_round (x : ℚ) : ℚ :=
  if 0 ≤ x then ((⌊x + 1 / 2⌋ : ℤ) : ℚ) else ((⌈x - 1 / 2⌉ : ℤ) : ℚ)

/-- Member function `CTVSequenceProps::OnBnClickedToFrames` (lines 308-322). -/
def OnBnClickedToFrames (v : Bool) (d : CTVSequenceProps) : CTVSequenceProps :=
  if !v then d
  else
    let d := { d with START_TIME := d.START_TIME.setSingleStep 1 }
    let d := { d with END_TIME := d.END_TIME.setSingleStep 1 }
    let d := { d with START_TIME := d.START_TIME.setValue (std_round (d.START_TIME.value * d.m_FPS)) }
    let d := { d with END_TIME := d.END_TIME.setValue (std_round (d.END_TIME.value * d.m_FPS)) }
    { d with m_timeUnit := TimeUnit.Frames }

/-- Member function `CTVSequenceProps::OnBnClickedToSeconds` (lines 325-341). -/
def OnBnClickedToSeconds (v : Bool) (d : CTVSequenceProps) : CTVSequenceProps :=
  if !v then d
  else
    let fInvFPS : ℚ := 1 / d.m_FPS
    let d := { d with START_TIME := d.START_TIME.setSingleStep fInvFPS }
    let d := { d with END_TIME := d.END_TIME.setSingleStep fInvFPS }
    let d := { d with START_TIME := d.START_TIME.setValue (d.START_TIME.value * fInvFPS) }
    let d := { d with END_TIME := d.END_TIME.setValue (d.END_TIME.value * fInvFPS) }
    { d with m_timeUnit := TimeUnit.Seconds }

/-- The call `setChecked(b)` on `ui->CUT_SCENE`: when the state changes, the
`toggled` signal runs `ToggleCutsceneOptions` (connected at line 42). -/
def setChecked_CUT_SCENE (b : Bool) (d : CTVSequenceProps) : CTVSequenceProps :=
  if d.CUT_SCENE = b then d else ToggleCutsceneOptions b { d with CUT_SCENE := b }

/-- The call `setChecked(true)` on `ui->TO_FRAMES`: nothing happens when the
button is checked already; otherwise it becomes checked and its partner
unchecked, and each button whose state changed emits `toggled` (connected at
lines 43-44). -/
def setChecked_TO_FRAMES (d : CTVSequenceProps) : CTVSequenceProps :=
  if d.TO_FRAMES then d
  else
    let wasSeconds := d.TO_SECONDS
    let d := { d with TO_FRAMES := true, TO_SECONDS := false }
    let d := if wasSeconds then OnBnClickedToSeconds false d else d
    OnBnClickedToFrames true d

/-- The call `setChecked(true)` on `ui->TO_SECONDS`, as `setChecked_TO_FRAMES`. -/
def setChecked_TO_SECONDS (d : CTVSequenceProps) : CTVSequenceProps :=
  if d.TO_SECONDS then d
  else
    let wasFrames := d.TO_FRAMES
    let d := { d with TO_SECONDS := true, TO_FRAMES := false }
    let d := if wasFrames then OnBnClickedToFrames false d else d
    OnBnClickedToSeconds true d

/-- The call `setChecked(true)` on `ui->ORT_CONSTANT`: nothing happens when the
button is checked already, otherwise it becomes the checked button of its group. -/
def setChecked_ORT_CONSTANT (d : CTVSequenceProps) : CTVSequenceProps :=
  if d.ORT_CONSTANT then d
  else { d with ORT_CONSTANT := true, ORT_ONCE := false, ORT_LOOP := false }

/-- The call `setChecked(true)` on `ui->ORT_LOOP`, as `setChecked_ORT_CONSTANT`. -/
def setChecked_ORT_LOOP (d : CTVSequenceProps) : CTVSequenceProps :=
  if d.ORT_LOOP then d
  else { d with ORT_LOOP := true, ORT_ONCE := false, ORT_CONSTANT := false }

/-- The call `setChecked(true)` on `ui->ORT_ONCE`, as `setChecked_ORT_CONSTANT`. -/
def setChecked_ORT_ONCE (d : CTVSequenceProps) : CTVSequenceProps :=
  if d.ORT_ONCE then d
  else { d with ORT_ONCE := true, ORT_CONSTANT := false, ORT_LOOP := false }

/-- Lines 56-69 of `OnInitDialog`: the name and the checkboxes. The local
`seqFlags` is the flag word of the sequence, `seq.flags`, throughout. -/
def initCheckBoxes (F : SeqFlagBits) (seq : Sequence) (d : CTVSequenceProps) :
    CTVSequenceProps :=
  let d := { d with NAME := seq.name }
  let d := { d with ALWAYS_PLAY := hasFlag seq.flags (BIT (F eSeqFlags_PlayOnReset)) }
  let d := setChecked_CUT_SCENE (hasFlag seq.flags (BIT (F eSeqFlags_CutScene))) d
  let d := { d with DISABLEPLAYER := hasFlag seq.flags (BIT (F eSeqFlags_NoPlayer)) }
  let d := { d with DISABLESOUNDS := hasFlag seq.flags (BIT (F eSeqFlags_NoGameSounds)) }
  let d := { d with NOSEEK := hasFlag seq.flags (BIT (F eSeqFlags_NoSeek)) }
  let d := { d with NOABORT := hasFlag seq.flags (BIT (F eSeqFlags_NoAbort)) }
  let d := { d with EARLYMOVIEUPDATE := hasFlag seq.flags (BIT (F eSeqFlags_EarlyMovieUpdate)) }
  let d := ToggleCutsceneOptions d.CUT_SCENE d
  { d with MOVE_SCALE_KEYS := false }

/-- Lines 71-91 of `OnInitDialog`: the time range and the time unit. -/
def initTimeRange (F : SeqFlagBits) (seq : Sequence) (d : CTVSequenceProps) :
    CTVSequenceProps :=
  let d := { d with START_TIME := d.START_TIME.setRange 0 100000 }
  let d := { d with END_TIME := d.END_TIME.setRange 0 100000 }
  let timeRange := seq.timeRange
  let invFPS : ℚ := 1 / d.m_FPS
  let d := { d with START_TIME := d.START_TIME.setValue timeRange.start }
  let d := { d with START_TIME := d.START_TIME.setSingleStep invFPS }
  let d := { d with END_TIME := d.END_TIME.setValue timeRange.end_ }
  let d := { d with END_TIME := d.END_TIME.setSingleStep invFPS }
  if hasFlag seq.flags (BIT (F eSeqFlags_DisplayAsFramesOrSeconds)) then
    setChecked_TO_FRAMES { d with m_timeUnit := TimeUnit.Frames }
  else
    setChecked_TO_SECONDS { d with m_timeUnit := TimeUnit.Seconds }

/-- Lines 93-107 of `OnInitDialog`: the out-of-range selection. -/
def initOutOfRange (F : SeqFlagBits) (seq : Sequence) (d : CTVSequenceProps) :
    CTVSequenceProps :=
  let d := { d with m_outOfRange := 0 }
  if hasFlag seq.flags (BIT (F eSeqFlags_OutOfRangeConstant)) then
    setChecked_ORT_CONSTANT { d with m_outOfRange := 1 }
  else if hasFlag seq.flags (BIT (F eSeqFlags_OutOfRangeLoop)) then
    setChecked_ORT_LOOP { d with m_outOfRange := 2 }
  else
    setChecked_ORT_ONCE d

/-- Member function `CTVSequenceProps::OnInitDialog` (lines 54-111). -/
def OnInitDialog (F : SeqFlagBits) (seq : Sequence) (d : CTVSequenceProps) : CTVSequenceProps :=
  initOutOfRange F seq (initTimeRange F seq (initCheckBoxes F seq d))

/-- The flag word computed at lines 172-254 of `UpdateSequenceProps` from the
sequence's current flags and the checkboxes and radio buttons. -/
def computeSeqFlags (F : SeqFlagBits) (d : CTVSequenceProps) (flags : Int) : Int :=
  let seqFlags := flags
  let seqFlags := Int.land seqFlags
    (Int.lnot (Int.lor (BIT (F eSeqFlags_OutOfRangeConstant)) (BIT (F eSeqFlags_OutOfRangeLoop))))
  let seqFlags :=
    if d.ALWAYS_PLAY then Int.lor seqFlags (BIT (F eSeqFlags_PlayOnReset))
    else Int.land seqFlags (Int.lnot (BIT (F eSeqFlags_PlayOnReset)))
  let seqFlags :=
    if d.CUT_SCENE then Int.lor seqFlags (BIT (F eSeqFlags_CutScene))
    else Int.land seqFlags (Int.lnot (BIT (F eSeqFlags_CutScene)))
  let seqFlags :=
    if d.DISABLEPLAYER then Int.lor seqFlags (BIT (F eSeqFlags_NoPlayer))
    else Int.land seqFlags (Int.lnot (BIT (F eSeqFlags_NoPlayer)))
  let seqFlags :=
    if d.ORT_CONSTANT then Int.lor seqFlags (BIT (F eSeqFlags_OutOfRangeConstant))
    else if d.ORT_LOOP then Int.lor seqFlags (BIT (F eSeqFlags_OutOfRangeLoop))
    else seqFlags
  let seqFlags :=
    if d.DISABLESOUNDS then Int.lor seqFlags (BIT (F eSeqFlags_NoGameSounds))
    else Int.land seqFlags (Int.lnot (BIT (F eSeqFlags_NoGameSounds)))
  let seqFlags :=
    if d.NOSEEK then Int.lor seqFlags (BIT (F eSeqFlags_NoSeek))
    else Int.land seqFlags (Int.lnot (BIT (F eSeqFlags_NoSeek)))
  let seqFlags :=
    if d.NOABORT then Int.lor seqFlags (BIT (F eSeqFlags_NoAbort))
    else Int.land seqFlags (Int.lnot (BIT (F eSeqFlags_NoAbort)))
  let seqFlags :=
    if d.EARLYMOVIEUPDATE then Int.lor seqFlags (BIT (F eSeqFlags_EarlyMovieUpdate))
    else Int.land seqFlags (Int.lnot (BIT (F eSeqFlags_EarlyMovieUpdate)))
  let seqFlags :=
    if d.TO_FRAMES then Int.lor seqFlags (BIT (F eSeqFlags_DisplayAsFramesOrSeconds))
    else Int.land seqFlags (Int.lnot (BIT (F eSeqFlags_DisplayAsFramesOrSeconds)))
  seqFlags

/-- Lines 121-135 of `UpdateSequenceProps`: the move/rescale block. -/
def rescaleStep (dryRun : Bool) (timeRangeOld timeRangeNew : Range) (r : Bool × State) :
    Bool × State :=
  if r.2.ui.MOVE_SCALE_KEYS then
    if !(timeRangeNew.beq timeRangeOld) then
      (true, if !dryRun then r.2.AdjustKeysToTimeRange timeRangeNew else r.2)
    else r
  else r

/-- Lines 137-142 of `UpdateSequenceProps`: the displayed range taken to seconds,
without rounding (`toSecondsRangeWith` leaves the rounding open). -/
def toSecondsRange (d : CTVSequenceProps) (timeRangeNew : Range) : Range :=
  if d.m_timeUnit = TimeUnit.Frames then
    let invFPS : ℚ := 1 / d.m_FPS
    { start := timeRangeNew.start * invFPS, end_ := timeRangeNew.end_ * invFPS }
  else timeRangeNew

/-- Lines 144-157 of `UpdateSequenceProps`: the plain range set. -/
def rangeStep (dryRun : Bool) (timeRangeOld timeRangeNew : Range) (r : Bool × State) :
    Bool × State :=
  if !(timeRangeNew.beq timeRangeOld) then
    (true,
      if !dryRun then
        let s := r.2.SetTimeRange timeRangeNew
        if s.hasAnimationContext then s.UpdateTimeRange else s
      else r.2)
  else r

/-- Lines 159-170 of `UpdateSequenceProps`: the rename. -/
def renameStep (name : QString) (dryRun : Bool) (r : Bool × State) : Bool × State :=
  let seqName := r.2.seq.name
  if name ≠ seqName then
    (true, if !dryRun then r.2.RenameNode name else r.2)
  else r

/-- Lines 172-263 of `UpdateSequenceProps`: the flag word. -/
def flagsStep (F : SeqFlagBits) (dryRun : Bool) (r : Bool × State) : Bool × State :=
  let seqFlags := computeSeqFlags F r.2.ui r.2.seq.flags
  if seqFlags ≠ r.2.seq.flags then
    (true, if !dryRun then r.2.SetFlags seqFlags else r.2)
  else r

/-- Member function `CTVSequenceProps::UpdateSequenceProps` (lines 118-265): the pair of the
returned `dirty` and the state afterwards. -/
def UpdateSequenceProps (F : SeqFlagBits) (name : QString) (dryRun : Bool) (s : State) :
    Bool × State :=
  let dirty := false
  let timeRangeOld := s.seq.timeRange
  let timeRangeNew : Range := { start := s.ui.START_TIME.value, end_ := s.ui.END_TIME.value }
  let r := rescaleStep dryRun timeRangeOld timeRangeNew (dirty, s)
  let timeRangeNew := toSecondsRange r.2.ui timeRangeNew
  let r := rangeStep dryRun timeRangeOld timeRangeNew r
  let r := renameStep name dryRun r
  flagsStep F dryRun r

/-- Member function `CTVSequenceProps::AreSequencePropsChanged` (lines 113-116). -/
def AreSequencePropsChanged (F : SeqFlagBits) (name : QString) (s : State) : Bool × State :=
  UpdateSequenceProps F name true s

/-- Member function `CTVSequenceProps::OnOK` (lines 267-292). The pointer
`m_pSequence` tested at line 281 is never null. The call `UpdateSequenceProps(name)`
at line 286 leaves `dryRun` at its default, `false`. -/
def OnOK (F : SeqFlagBits) (s : State) : State :=
  let name := s.ui.NAME
  if name.isEmpty then
    s.log (Call.warning "Sequence Properties" "A sequence name cannot be empty!")
  else if name.contains '/' then
    s.log (Call.warning "Sequence Properties" "A sequence name cannot contain a '/' character!")
  else
    let r := AreSequencePropsChanged F name s
    let s :=
      if r.1 then
        let s := r.2.log (Call.ScopedUndoBatch "Change TrackView Sequence Settings")
        let s := (UpdateSequenceProps F name false s).2
        s.log Call.MarkEntityDirty
      else r.2
    { s with ui := { s.ui with accepted := true } }

/-! ## `UpdateSequenceProps` with the float arithmetic as a parameter -/

/-- The `float` operations of lines 122 and 137-142, whose rounding is not
fixed here: `toFloat` is `static_cast<float>` of a displayed `double`, `inv` is
`1.0f / m_FPS` and `mul` is the `float` product of `*=`. Finite floats are
taken as the rationals they denote. -/
structure FloatArith where
  toFloat : ℚ → ℚ
  inv : ℚ → ℚ
  mul : ℚ → ℚ → ℚ

/-- The arithmetic without rounding, which `UpdateSequenceProps` uses. -/
def exactArith : FloatArith :=
  { toFloat := fun x => x, inv := fun x => 1 / x, mul := fun x y => x * y }

/-- Lines 137-142 of `UpdateSequenceProps` over the arithmetic `A`. -/
def toSecondsRangeWith (A : FloatArith) (d : CTVSequenceProps) (timeRangeNew : Range) : Range :=
  if d.m_timeUnit = TimeUnit.Frames then
    let invFPS : ℚ := A.inv d.m_FPS
    { start := A.mul timeRangeNew.start invFPS, end_ := A.mul timeRangeNew.end_ invFPS }
  else timeRangeNew

/-- Member function `CTVSequenceProps::UpdateSequenceProps` (lines 118-265) over
the arithmetic `A`: the same steps as `UpdateSequenceProps`, with the cast of
line 122 and the product of lines 139-141 taken from `A`. -/
def UpdateSequencePropsWith (A : FloatArith) (F : SeqFlagBits) (name : QString) (dryRun : Bool)
    (s : State) : Bool × State :=
  let dirty := false
  let timeRangeOld := s.seq.timeRange
  let timeRangeNew : Range :=
    { start := A.toFloat s.ui.START_TIME.value, end_ := A.toFloat s.ui.END_TIME.value }
  let r := rescaleStep dryRun timeRangeOld timeRangeNew (dirty, s)
  let timeRangeNew := toSecondsRangeWith A r.2.ui timeRangeNew
  let r := rangeStep dryRun timeRangeOld timeRangeNew r
  let r := renameStep name dryRun r
  flagsStep F dryRun r

/-- The range that line 144 of `UpdateSequenceProps` compares with the stored
range: the displayed values cast to `float` and, in unit Frames, multiplied by
`1.0f / m_FPS`. -/
def secondsRangeWith (A : FloatArith) (s : State) : Range :=
  toSecondsRangeWith A s.ui
    { start := A.toFloat s.ui.START_TIME.value, end_ := A.toFloat s.ui.END_TIME.value }

/-! ## States the dialog can hold, and concrete inputs -/

/-- Exactly one radio button of each of the two groups is checked. -/
def RadioExclusive (d : CTVSequenceProps) : Prop :=
  d.TO_SECONDS = (!d.TO_FRAMES) ∧
  ((d.ORT_ONCE = true ∧ d.ORT_CONSTANT = false ∧ d.ORT_LOOP = false) ∨
   (d.ORT_ONCE = false ∧ d.ORT_CONSTANT = true ∧ d.ORT_LOOP = false) ∨
   (d.ORT_ONCE = false ∧ d.ORT_CONSTANT = false ∧ d.ORT_LOOP = true))

instance (d : CTVSequenceProps) : Decidable (RadioExclusive d) := by
  unfold RadioExclusive; infer_instance

/-- At most one radio button of each of the two groups is checked. -/
def RadioAtMostOne (d : CTVSequenceProps) : Prop :=
  (d.TO_SECONDS && d.TO_FRAMES) = false ∧ (d.ORT_ONCE && d.ORT_CONSTANT) = false ∧
    (d.ORT_ONCE && d.ORT_LOOP) = false ∧ (d.ORT_CONSTANT && d.ORT_LOOP) = false

instance (d : CTVSequenceProps) : Decidable (RadioAtMostOne d) := by
  unfold RadioAtMostOne; infer_instance

/-- The three options that depend on cutscene are unchecked while cutscene is. -/
def CutsceneDependentsOff (d : CTVSequenceProps) : Prop :=
  d.CUT_SCENE = false →
    d.NOABORT = false ∧ d.DISABLEPLAYER = false ∧ d.DISABLESOUNDS = false

instance (d : CTVSequenceProps) : Decidable (CutsceneDependentsOff d) := by
  unfold CutsceneDependentsOff; infer_instance

/-- A spin box with the bounds `OnInitDialog` sets, showing `v`. -/
def spinBox (v step : ℚ) : QDoubleSpinBox :=
  { value := v, minimum := 0, maximum := 100000, singleStep := step }

/-- A dialog at 24 fps in unit Seconds showing the range `[0, 1]`, nothing checked. -/
def secondsDialog : CTVSequenceProps :=
  { NAME := ['s', 'e', 'q'], ALWAYS_PLAY := false, CUT_SCENE := false, DISABLEPLAYER := false,
    DISABLESOUNDS := false, NOSEEK := false, NOABORT := false, EARLYMOVIEUPDATE := false,
    NOABORT_enabled := false, DISABLEPLAYER_enabled := false, DISABLESOUNDS_enabled := false,
    MOVE_SCALE_KEYS := false, START_TIME := spinBox 0 (1 / 24), END_TIME := spinBox 1 (1 / 24),
    TO_SECONDS := true, TO_FRAMES := false,
    ORT_ONCE := true, ORT_CONSTANT := false, ORT_LOOP := false,
    m_FPS := 24, m_outOfRange := 0, m_timeUnit := TimeUnit.Seconds, accepted := false }

/-- A dialog at 24 fps in unit Frames showing the frames `[0, last]`, with
"move/rescale keys" checked. -/
def framesDialog (last : ℚ) : CTVSequenceProps :=
  { secondsDialog with
    MOVE_SCALE_KEYS := true, START_TIME := spinBox 0 1, END_TIME := spinBox last 1,
    TO_SECONDS := false, TO_FRAMES := true, m_timeUnit := TimeUnit.Frames }

/-- A sequence named `seq` with the time range `[0, 1]` seconds and the given flags. -/
def sampleSequence (flags : Int) : Sequence :=
  { name := ['s', 'e', 'q'], flags := flags, timeRange := { start := 0, end_ := 1 } }

/-- The sequence `[0, 1]` s displayed in frames, with `last` as the displayed end. -/
def framesState (last : ℚ) : State :=
  { seq := sampleSequence (BIT (sampleBits eSeqFlags_DisplayAsFramesOrSeconds))
    ui := framesDialog last, hasAnimationContext := true, calls := [] }

/-- The sequence `[0, 1]` s displayed in seconds as `[0, 2]`, with "move/rescale
keys" checked. -/
def secondsState : State :=
  { seq := sampleSequence 0
    ui := { secondsDialog with MOVE_SCALE_KEYS := true, END_TIME := spinBox 2 (1 / 24) }
    hasAnimationContext := true, calls := [] }

/-- A dialog with cutscene, no-player and early-movie-update checked, unit Frames
and out-of-range Loop. -/
def cutsceneDialog : CTVSequenceProps :=
  { framesDialog 24 with
    CUT_SCENE := true, DISABLEPLAYER := true, EARLYMOVIEUPDATE := true,
    NOABORT_enabled := true, DISABLEPLAYER_enabled := true, DISABLESOUNDS_enabled := true,
    ORT_ONCE := false, ORT_LOOP := true }

/-- The seconds dialog over the sample sequence, with `name` typed into the name field. -/
def namedState (name : QString) : State :=
  { seq := sampleSequence 0
    ui := { secondsDialog with NAME := name }
    hasAnimationContext := true, calls := [] }

/-- The cutscene dialog over a sequence without flags. -/
def cutsceneState : State :=
  { seq := sampleSequence 0, ui := cutsceneDialog, hasAnimationContext := true, calls := [] }

/-! ## Bit-level lemmas -/

/-- A natural number and a negative integer differ at some bit. -/
theorem testBit_ofNat_ne_negSucc (a b : Nat) :
    (Int.ofNat a).testBit (max a b) ≠ (Int.negSucc b).testBit (max a b) := by
  have ha : a.testBit (max a b) = false :=
    Nat.testBit_lt_two_pow (lt_of_le_of_lt (le_max_left a b) (Nat.lt_two_pow _))
  have hb : b.testBit (max a b) = false :=
    Nat.testBit_lt_two_pow (lt_of_le_of_lt (le_max_right a b) (Nat.lt_two_pow _))
  simp [Int.testBit, ha, hb]

/-- Integers with the same bits are equal. -/
theorem int_eq_of_testBit_eq {x y : Int} (h : ∀ i, x.testBit i = y.testBit i) : x = y := by
  cases x with
  | ofNat a =>
    cases y with
    | ofNat b =>
      congr 1
      exact Nat.eq_of_testBit_eq h
    | negSucc b => exact absurd (h _) (testBit_ofNat_ne_negSucc a b)
  | negSucc a =>
    cases y with
    | ofNat b => exact absurd (h _).symm (testBit_ofNat_ne_negSucc b a)
    | negSucc b =>
      congr 1
      apply Nat.eq_of_testBit_eq
      intro i
      have h1 := h i
      simpa [Int.testBit] using h1

theorem testBit_BIT (k i : Nat) : (BIT k).testBit i = decide (k = i) := by
  have h : BIT k = ((2 ^ k : Nat) : Int) := by simp [BIT]
  rw [h]
  show Nat.testBit (2 ^ k) i = decide (k = i)
  exact Nat.testBit_two_pow

theorem int_testBit_zero (i : Nat) : (0 : Int).testBit i = false := by
  show Nat.testBit 0 i = false
  simp

theorem hasFlag_BIT (x : Int) (k : Nat) : hasFlag x (BIT k) = x.testBit k := by
  unfold hasFlag
  by_cases hk : x.testBit k = true
  · rw [hk, decide_eq_true_eq]
    intro h0
    have h1 : (Int.land x (BIT k)).testBit k = true := by
      rw [Int.testBit_land, testBit_BIT, hk]; simp
    rw [h0, int_testBit_zero] at h1
    exact Bool.noConfusion h1
  · have hk0 : x.testBit k = false := by simpa using hk
    rw [hk0, decide_eq_false_iff_not, not_not]
    apply int_eq_of_testBit_eq
    intro i
    rw [Int.testBit_land, testBit_BIT, int_testBit_zero]
    by_cases hi : k = i
    · subst hi; simp [hk0]
    · simp [hi]

/-- A checkbox block of `UpdateSequenceProps` writes its bit and no other. -/
theorem testBit_checkbox (b : Bool) (k : Nat) (x : Int) (i : Nat) :
    (if b = true then Int.lor x (BIT k) else Int.land x (Int.lnot (BIT k))).testBit i
      = if k = i then b else x.testBit i := by
  cases b <;> by_cases h : k = i <;>
    simp [Int.testBit_lor, Int.testBit_land, Int.testBit_lnot, testBit_BIT, h]

/-- The out-of-range block (lines 202-209) adds at most one of its two bits. -/
theorem testBit_outOfRange (c l : Bool) (kc kl : Nat) (x : Int) (i : Nat) :
    (if c = true then Int.lor x (BIT kc)
      else if l = true then Int.lor x (BIT kl) else x).testBit i
      = (x.testBit i || (c && decide (kc = i)) || (!c && l && decide (kl = i))) := by
  cases c <;> cases l <;> simp [Int.testBit_lor, testBit_BIT]

/-- Bit `i` of the flag word computed by `UpdateSequenceProps`. -/
theorem testBit_computeSeqFlags (F : SeqFlagBits) (d : CTVSequenceProps) (x : Int) (i : Nat) :
    (computeSeqFlags F d x).testBit i =
      if F eSeqFlags_DisplayAsFramesOrSeconds = i then d.TO_FRAMES
      else if F eSeqFlags_EarlyMovieUpdate = i then d.EARLYMOVIEUPDATE
      else if F eSeqFlags_NoAbort = i then d.NOABORT
      else if F eSeqFlags_NoSeek = i then d.NOSEEK
      else if F eSeqFlags_NoGameSounds = i then d.DISABLESOUNDS
      else
        ((if F eSeqFlags_NoPlayer = i then d.DISABLEPLAYER
          else if F eSeqFlags_CutScene = i then d.CUT_SCENE
          else if F eSeqFlags_PlayOnReset = i then d.ALWAYS_PLAY
          else (x.testBit i &&
            !(decide (F eSeqFlags_OutOfRangeConstant = i) || decide (F eSeqFlags_OutOfRangeLoop = i))))
          || (d.ORT_CONSTANT && decide (F eSeqFlags_OutOfRangeConstant = i))
          || (!d.ORT_CONSTANT && d.ORT_LOOP && decide (F eSeqFlags_OutOfRangeLoop = i))) := by
  unfold computeSeqFlags
  simp only [testBit_checkbox, testBit_outOfRange, Int.testBit_land, Int.testBit_lnot,
    Int.testBit_lor, testBit_BIT]

/-! ## The steps of `UpdateSequenceProps` -/

theorem rescaleStep_dry (old new : Range) (r : Bool × State) :
    (rescaleStep true old new r).2 = r.2 := by
  simp only [rescaleStep, Bool.not_true, Bool.false_eq_true, if_false]; split_ifs <;> rfl

theorem rangeStep_dry (old new : Range) (r : Bool × State) :
    (rangeStep true old new r).2 = r.2 := by
  simp only [rangeStep, Bool.not_true, Bool.false_eq_true, if_false]; split_ifs <;> rfl

theorem renameStep_dry (name : QString) (r : Bool × State) : (renameStep name true r).2 = r.2 := by
  simp only [renameStep, Bool.not_true, Bool.false_eq_true, if_false]; split_ifs <;> rfl

theorem flagsStep_dry (F : SeqFlagBits) (r : Bool × State) : (flagsStep F true r).2 = r.2 := by
  simp only [flagsStep, Bool.not_true, Bool.false_eq_true, if_false]; split_ifs <;> rfl

theorem rescaleStep_ui (dryRun : Bool) (old new : Range) (r : Bool × State) :
    (rescaleStep dryRun old new r).2.ui = r.2.ui := by
  simp only [rescaleStep, State.AdjustKeysToTimeRange]; split_ifs <;> rfl

theorem rescaleStep_flags (dryRun : Bool) (old new : Range) (r : Bool × State) :
    (rescaleStep dryRun old new r).2.seq.flags = r.2.seq.flags := by
  simp only [rescaleStep, State.AdjustKeysToTimeRange]; split_ifs <;> rfl

theorem rescaleStep_name (dryRun : Bool) (old new : Range) (r : Bool × State) :
    (rescaleStep dryRun old new r).2.seq.name = r.2.seq.name := by
  simp only [rescaleStep, State.AdjustKeysToTimeRange]; split_ifs <;> rfl

theorem rescaleStep_ctx (dryRun : Bool) (old new : Range) (r : Bool × State) :
    (rescaleStep dryRun old new r).2.hasAnimationContext = r.2.hasAnimationContext := by
  simp only [rescaleStep, State.AdjustKeysToTimeRange]; split_ifs <;> rfl

theorem rescaleStep_calls (old new : Range) (r : Bool × State) :
    (rescaleStep false old new r).2.calls =
      r.2.calls ++ (if r.2.ui.MOVE_SCALE_KEYS = true ∧ new ≠ old
        then [Call.AdjustKeysToTimeRange new] else []) := by
  unfold rescaleStep State.AdjustKeysToTimeRange Range.beq
  rcases new with ⟨a, b⟩
  rcases old with ⟨c, e⟩
  by_cases h1 : r.2.ui.MOVE_SCALE_KEYS = true <;> by_cases h2 : a = c <;> by_cases h3 : b = e <;>
    simp [h1, h2, h3]

theorem rescaleStep_dirty (dryRun : Bool) (old new : Range) (r : Bool × State) :
    (rescaleStep dryRun old new r).1 =
      (r.1 || (r.2.ui.MOVE_SCALE_KEYS && !(new.beq old))) := by
  rcases r with ⟨b, st⟩
  simp only [rescaleStep]
  cases h1 : st.ui.MOVE_SCALE_KEYS <;> cases h2 : new.beq old <;> simp

theorem rangeStep_ui (dryRun : Bool) (old new : Range) (r : Bool × State) :
    (rangeStep dryRun old new r).2.ui = r.2.ui := by
  simp only [rangeStep, State.SetTimeRange, State.UpdateTimeRange]; split_ifs <;> rfl

theorem rangeStep_flags (dryRun : Bool) (old new : Range) (r : Bool × State) :
    (rangeStep dryRun old new r).2.seq.flags = r.2.seq.flags := by
  simp only [rangeStep, State.SetTimeRange, State.UpdateTimeRange]; split_ifs <;> rfl

theorem rangeStep_name (dryRun : Bool) (old new : Range) (r : Bool × State) :
    (rangeStep dryRun old new r).2.seq.name = r.2.seq.name := by
  simp only [rangeStep, State.SetTimeRange, State.UpdateTimeRange]; split_ifs <;> rfl

theorem rangeStep_calls (old new : Range) (r : Bool × State) :
    (rangeStep false old new r).2.calls =
      r.2.calls ++ (if new ≠ old
        then Call.SetTimeRange new ::
          (if r.2.hasAnimationContext = true then [Call.UpdateTimeRange] else [])
        else []) := by
  unfold rangeStep State.SetTimeRange State.UpdateTimeRange Range.beq
  rcases new with ⟨a, b⟩
  rcases old with ⟨c, e⟩
  by_cases h1 : r.2.hasAnimationContext = true <;> by_cases h2 : a = c <;> by_cases h3 : b = e <;>
    simp [h1, h2, h3]

theorem rangeStep_dirty (dryRun : Bool) (old new : Range) (r : Bool × State) :
    (rangeStep dryRun old new r).1 = (r.1 || !(new.beq old)) := by
  rcases r with ⟨b, st⟩
  simp only [rangeStep]
  cases h2 : new.beq old <;> simp

theorem renameStep_ui (name : QString) (dryRun : Bool) (r : Bool × State) :
    (renameStep name dryRun r).2.ui = r.2.ui := by
  simp only [renameStep, State.RenameNode]; split_ifs <;> rfl

theorem renameStep_flags (name : QString) (dryRun : Bool) (r : Bool × State) :
    (renameStep name dryRun r).2.seq.flags = r.2.seq.flags := by
  simp only [renameStep, State.RenameNode]; split_ifs <;> rfl

theorem renameStep_calls (name : QString) (r : Bool × State) :
    (renameStep name false r).2.calls =
      r.2.calls ++ (if name ≠ r.2.seq.name then [Call.RenameNode name] else []) := by
  unfold renameStep State.RenameNode
  by_cases h : name = r.2.seq.name <;> simp [h]

theorem renameStep_dirty (name : QString) (dryRun : Bool) (r : Bool × State) :
    (renameStep name dryRun r).1 = (r.1 || decide (name ≠ r.2.seq.name)) := by
  unfold renameStep
  by_cases h : name = r.2.seq.name <;> simp [h]

theorem flagsStep_ui (F : SeqFlagBits) (dryRun : Bool) (r : Bool × State) :
    (flagsStep F dryRun r).2.ui = r.2.ui := by
  simp only [flagsStep, State.SetFlags]; split_ifs <;> rfl

theorem flagsStep_flags (F : SeqFlagBits) (r : Bool × State) :
    (flagsStep F false r).2.seq.flags = computeSeqFlags F r.2.ui r.2.seq.flags := by
  unfold flagsStep State.SetFlags
  by_cases h : computeSeqFlags F r.2.ui r.2.seq.flags = r.2.seq.flags <;> simp [h]

theorem flagsStep_calls (F : SeqFlagBits) (r : Bool × State) :
    (flagsStep F false r).2.calls =
      r.2.calls ++ (if computeSeqFlags F r.2.ui r.2.seq.flags ≠ r.2.seq.flags
        then [Call.SetFlags (computeSeqFlags F r.2.ui r.2.seq.flags)] else []) := by
  unfold flagsStep State.SetFlags
  by_cases h : computeSeqFlags F r.2.ui r.2.seq.flags = r.2.seq.flags <;> simp [h]

theorem flagsStep_dirty (F : SeqFlagBits) (dryRun : Bool) (r : Bool × State) :
    (flagsStep F dryRun r).1 =
      (r.1 || decide (computeSeqFlags F r.2.ui r.2.seq.flags ≠ r.2.seq.flags)) := by
  unfold flagsStep
  by_cases h : computeSeqFlags F r.2.ui r.2.seq.flags = r.2.seq.flags <;> simp [h]

/-! ## Frame lemmas for `UpdateSequenceProps` -/

/-- The dialog is never written by `UpdateSequenceProps`. -/
theorem UpdateSequenceProps_ui (F : SeqFlagBits) (name : QString) (dryRun : Bool) (s : State) :
    (UpdateSequenceProps F name dryRun s).2.ui = s.ui := by
  simp only [UpdateSequenceProps, flagsStep_ui, renameStep_ui, rangeStep_ui, rescaleStep_ui]

/-- After an applying run the sequence holds the computed flag word. -/
theorem UpdateSequenceProps_flags (F : SeqFlagBits) (name : QString) (s : State) :
    (UpdateSequenceProps F name false s).2.seq.flags = computeSeqFlags F s.ui s.seq.flags := by
  simp only [UpdateSequenceProps, flagsStep_flags, renameStep_ui, rangeStep_ui, rescaleStep_ui,
    renameStep_flags, rangeStep_flags, rescaleStep_flags]

/-- A dry run leaves the whole state as it was. -/
theorem UpdateSequenceProps_dry (F : SeqFlagBits) (name : QString) (s : State) :
    (UpdateSequenceProps F name true s).2 = s := by
  simp only [UpdateSequenceProps, flagsStep_dry, renameStep_dry, rangeStep_dry, rescaleStep_dry]

/-- The calls of an applying run, in order. -/
theorem UpdateSequenceProps_calls (F : SeqFlagBits) (name : QString) (s : State) :
    (UpdateSequenceProps F name false s).2.calls =
      s.calls
      ++ (if s.ui.MOVE_SCALE_KEYS = true ∧
            (⟨s.ui.START_TIME.value, s.ui.END_TIME.value⟩ : Range) ≠ s.seq.timeRange
          then [Call.AdjustKeysToTimeRange ⟨s.ui.START_TIME.value, s.ui.END_TIME.value⟩] else [])
      ++ (if toSecondsRange s.ui ⟨s.ui.START_TIME.value, s.ui.END_TIME.value⟩ ≠ s.seq.timeRange
          then Call.SetTimeRange (toSecondsRange s.ui ⟨s.ui.START_TIME.value, s.ui.END_TIME.value⟩) ::
            (if s.hasAnimationContext = true then [Call.UpdateTimeRange] else [])
          else [])
      ++ (if name ≠ s.seq.name then [Call.RenameNode name] else [])
      ++ (if computeSeqFlags F s.ui s.seq.flags ≠ s.seq.flags
          then [Call.SetFlags (computeSeqFlags F s.ui s.seq.flags)] else []) := by
  simp only [UpdateSequenceProps, flagsStep_calls, renameStep_calls, rangeStep_calls,
    rescaleStep_calls, renameStep_ui, rangeStep_ui, rescaleStep_ui,
    renameStep_flags, rangeStep_flags, rescaleStep_flags, rangeStep_name, rescaleStep_name,
    rescaleStep_ctx]

/-- The value returned by `UpdateSequenceProps`. -/
theorem UpdateSequenceProps_dirty (F : SeqFlagBits) (name : QString) (dryRun : Bool) (s : State) :
    (UpdateSequenceProps F name dryRun s).1 =
      ((s.ui.MOVE_SCALE_KEYS &&
          !((⟨s.ui.START_TIME.value, s.ui.END_TIME.value⟩ : Range).beq s.seq.timeRange))
        || !((toSecondsRange s.ui ⟨s.ui.START_TIME.value, s.ui.END_TIME.value⟩).beq s.seq.timeRange)
        || decide (name ≠ s.seq.name)
        || decide (computeSeqFlags F s.ui s.seq.flags ≠ s.seq.flags)) := by
  simp only [UpdateSequenceProps, flagsStep_dirty, renameStep_dirty, rangeStep_dirty,
    rescaleStep_dirty, renameStep_ui, rangeStep_ui, rescaleStep_ui,
    renameStep_flags, rangeStep_flags, rescaleStep_flags, rangeStep_name, rescaleStep_name,
    Bool.false_or]

/-! ## Layout and flag-word lemmas -/

theorem sampleBits_distinct : SeqFlagBits.Distinct sampleBits := by
  intro a b h
  cases a <;> cases b <;> first | rfl | (exact absurd h (by decide))

/-- With distinct bits, each managed bit of the computed word is its control. -/
theorem computeSeqFlags_bits (F : SeqFlagBits) (hF : F.Distinct) (d : CTVSequenceProps) (x : Int) :
    (computeSeqFlags F d x).testBit (F eSeqFlags_PlayOnReset) = d.ALWAYS_PLAY
    ∧ (computeSeqFlags F d x).testBit (F eSeqFlags_CutScene) = d.CUT_SCENE
    ∧ (computeSeqFlags F d x).testBit (F eSeqFlags_NoPlayer) = d.DISABLEPLAYER
    ∧ (computeSeqFlags F d x).testBit (F eSeqFlags_NoGameSounds) = d.DISABLESOUNDS
    ∧ (computeSeqFlags F d x).testBit (F eSeqFlags_NoSeek) = d.NOSEEK
    ∧ (computeSeqFlags F d x).testBit (F eSeqFlags_NoAbort) = d.NOABORT
    ∧ (computeSeqFlags F d x).testBit (F eSeqFlags_EarlyMovieUpdate) = d.EARLYMOVIEUPDATE
    ∧ (computeSeqFlags F d x).testBit (F eSeqFlags_DisplayAsFramesOrSeconds) = d.TO_FRAMES
    ∧ (computeSeqFlags F d x).testBit (F eSeqFlags_OutOfRangeConstant) = d.ORT_CONSTANT
    ∧ (computeSeqFlags F d x).testBit (F eSeqFlags_OutOfRangeLoop)
        = (!d.ORT_CONSTANT && d.ORT_LOOP) := by
  have hF' : ∀ a b, F a = F b ↔ a = b := fun a b => hF.eq_iff
  simp [testBit_computeSeqFlags, hF']

/-- A bit that is none of the ten keeps its value. -/
theorem computeSeqFlags_unmanaged (F : SeqFlagBits) (d : CTVSequenceProps) (x : Int) (i : Nat)
    (hi : ∀ c, F c ≠ i) : (computeSeqFlags F d x).testBit i = x.testBit i := by
  simp [testBit_computeSeqFlags, hi]

/-- The flag word of the frames state is already what the dialog shows. -/
theorem computeSeqFlags_framesState (last : ℚ) :
    computeSeqFlags sampleBits (framesState last).ui (framesState last).seq.flags
      = (framesState last).seq.flags := by
  apply int_eq_of_testBit_eq
  intro i
  rw [testBit_computeSeqFlags]
  simp only [framesState, sampleSequence, testBit_BIT, framesDialog, secondsDialog, sampleBits]
  split_ifs <;> simp_all

/-- The flag word of the seconds state is already what the dialog shows. -/
theorem computeSeqFlags_secondsState :
    computeSeqFlags sampleBits secondsState.ui secondsState.seq.flags
      = secondsState.seq.flags := by
  apply int_eq_of_testBit_eq
  intro i
  rw [testBit_computeSeqFlags]
  simp only [secondsState, sampleSequence, int_testBit_zero, secondsDialog, sampleBits]
  split_ifs <;> simp_all

/-- The checkboxes after lines 56-69 of `OnInitDialog`; the radio buttons are
not touched. -/
theorem initCheckBoxes_controls (F : SeqFlagBits) (seq : Sequence) (d : CTVSequenceProps) :
    (initCheckBoxes F seq d).ALWAYS_PLAY = hasFlag seq.flags (BIT (F eSeqFlags_PlayOnReset))
    ∧ (initCheckBoxes F seq d).CUT_SCENE = hasFlag seq.flags (BIT (F eSeqFlags_CutScene))
    ∧ (initCheckBoxes F seq d).DISABLEPLAYER =
        (hasFlag seq.flags (BIT (F eSeqFlags_CutScene))
          && hasFlag seq.flags (BIT (F eSeqFlags_NoPlayer)))
    ∧ (initCheckBoxes F seq d).DISABLESOUNDS =
        (hasFlag seq.flags (BIT (F eSeqFlags_CutScene))
          && hasFlag seq.flags (BIT (F eSeqFlags_NoGameSounds)))
    ∧ (initCheckBoxes F seq d).NOSEEK = hasFlag seq.flags (BIT (F eSeqFlags_NoSeek))
    ∧ (initCheckBoxes F seq d).NOABORT =
        (hasFlag seq.flags (BIT (F eSeqFlags_CutScene))
          && hasFlag seq.flags (BIT (F eSeqFlags_NoAbort)))
    ∧ (initCheckBoxes F seq d).EARLYMOVIEUPDATE =
        hasFlag seq.flags (BIT (F eSeqFlags_EarlyMovieUpdate))
    ∧ (initCheckBoxes F seq d).TO_SECONDS = d.TO_SECONDS
    ∧ (initCheckBoxes F seq d).TO_FRAMES = d.TO_FRAMES
    ∧ (initCheckBoxes F seq d).ORT_ONCE = d.ORT_ONCE
    ∧ (initCheckBoxes F seq d).ORT_CONSTANT = d.ORT_CONSTANT
    ∧ (initCheckBoxes F seq d).ORT_LOOP = d.ORT_LOOP := by
  unfold initCheckBoxes setChecked_CUT_SCENE ToggleCutsceneOptions
  generalize hasFlag seq.flags (BIT (F eSeqFlags_CutScene)) = cs
  rcases d with ⟨_, _, c0, _, _, _, _, _, _, _, _, _, _, _, _, _, _, _, _, _, _, _, _⟩
  cases c0 <;> cases cs <;> exact ⟨rfl, rfl, rfl, rfl, rfl, rfl, rfl, rfl, rfl, rfl, rfl, rfl⟩

/-- The time-unit radio buttons after lines 71-91 of `OnInitDialog`; the
checkboxes and the out-of-range buttons are not touched. -/
theorem initTimeRange_controls (F : SeqFlagBits) (seq : Sequence) (d : CTVSequenceProps)
    (hd : (d.TO_SECONDS && d.TO_FRAMES) = false) :
    (initTimeRange F seq d).TO_FRAMES =
        hasFlag seq.flags (BIT (F eSeqFlags_DisplayAsFramesOrSeconds))
    ∧ (initTimeRange F seq d).TO_SECONDS =
        (!hasFlag seq.flags (BIT (F eSeqFlags_DisplayAsFramesOrSeconds)))
    ∧ (initTimeRange F seq d).m_timeUnit =
        (if hasFlag seq.flags (BIT (F eSeqFlags_DisplayAsFramesOrSeconds)) = true
          then TimeUnit.Frames else TimeUnit.Seconds)
    ∧ (initTimeRange F seq d).ALWAYS_PLAY = d.ALWAYS_PLAY
    ∧ (initTimeRange F seq d).CUT_SCENE = d.CUT_SCENE
    ∧ (initTimeRange F seq d).DISABLEPLAYER = d.DISABLEPLAYER
    ∧ (initTimeRange F seq d).DISABLESOUNDS = d.DISABLESOUNDS
    ∧ (initTimeRange F seq d).NOSEEK = d.NOSEEK
    ∧ (initTimeRange F seq d).NOABORT = d.NOABORT
    ∧ (initTimeRange F seq d).EARLYMOVIEUPDATE = d.EARLYMOVIEUPDATE
    ∧ (initTimeRange F seq d).ORT_ONCE = d.ORT_ONCE
    ∧ (initTimeRange F seq d).ORT_CONSTANT = d.ORT_CONSTANT
    ∧ (initTimeRange F seq d).ORT_LOOP = d.ORT_LOOP := by
  unfold initTimeRange setChecked_TO_FRAMES setChecked_TO_SECONDS OnBnClickedToFrames
    OnBnClickedToSeconds
  generalize hasFlag seq.flags (BIT (F eSeqFlags_DisplayAsFramesOrSeconds)) = df
  rcases d with ⟨_, _, _, _, _, _, _, _, _, _, _, _, _, _, ts, tf, _, _, _, _, _, _, _⟩
  cases ts <;> cases tf <;> cases df <;>
    first
    | exact ⟨rfl, rfl, rfl, rfl, rfl, rfl, rfl, rfl, rfl, rfl, rfl, rfl, rfl⟩
    | (simp at hd)

/-- The out-of-range buttons after lines 93-107 of `OnInitDialog`; the
checkboxes and the time unit are not touched. -/
theorem initOutOfRange_controls (F : SeqFlagBits) (seq : Sequence) (d : CTVSequenceProps)
    (hd : (d.ORT_ONCE && d.ORT_CONSTANT) = false ∧ (d.ORT_ONCE && d.ORT_LOOP) = false ∧
      (d.ORT_CONSTANT && d.ORT_LOOP) = false) :
    (initOutOfRange F seq d).ORT_CONSTANT =
        hasFlag seq.flags (BIT (F eSeqFlags_OutOfRangeConstant))
    ∧ (initOutOfRange F seq d).ORT_LOOP =
        (!hasFlag seq.flags (BIT (F eSeqFlags_OutOfRangeConstant))
          && hasFlag seq.flags (BIT (F eSeqFlags_OutOfRangeLoop)))
    ∧ (initOutOfRange F seq d).ORT_ONCE =
        (!hasFlag seq.flags (BIT (F eSeqFlags_OutOfRangeConstant))
          && !hasFlag seq.flags (BIT (F eSeqFlags_OutOfRangeLoop)))
    ∧ (initOutOfRange F seq d).m_outOfRange =
        (if hasFlag seq.flags (BIT (F eSeqFlags_OutOfRangeConstant)) = true then 1
          else if hasFlag seq.flags (BIT (F eSeqFlags_OutOfRangeLoop)) = true then 2 else 0)
    ∧ (initOutOfRange F seq d).ALWAYS_PLAY = d.ALWAYS_PLAY
    ∧ (initOutOfRange F seq d).CUT_SCENE = d.CUT_SCENE
    ∧ (initOutOfRange F seq d).DISABLEPLAYER = d.DISABLEPLAYER
    ∧ (initOutOfRange F seq d).DISABLESOUNDS = d.DISABLESOUNDS
    ∧ (initOutOfRange F seq d).NOSEEK = d.NOSEEK
    ∧ (initOutOfRange F seq d).NOABORT = d.NOABORT
    ∧ (initOutOfRange F seq d).EARLYMOVIEUPDATE = d.EARLYMOVIEUPDATE
    ∧ (initOutOfRange F seq d).TO_SECONDS = d.TO_SECONDS
    ∧ (initOutOfRange F seq d).TO_FRAMES = d.TO_FRAMES
    ∧ (initOutOfRange F seq d).m_timeUnit = d.m_timeUnit := by
  unfold initOutOfRange setChecked_ORT_CONSTANT setChecked_ORT_LOOP setChecked_ORT_ONCE
  generalize hasFlag seq.flags (BIT (F eSeqFlags_OutOfRangeConstant)) = oc
  generalize hasFlag seq.flags (BIT (F eSeqFlags_OutOfRangeLoop)) = ol
  rcases d with ⟨_, _, _, _, _, _, _, _, _, _, _, _, _, _, _, _, o1, o2, o3, _, _, _, _⟩
  cases o1 <;> cases o2 <;> cases o3 <;> cases oc <;> cases ol <;>
    first
    | exact ⟨rfl, rfl, rfl, rfl, rfl, rfl, rfl, rfl, rfl, rfl, rfl, rfl, rfl, rfl⟩
    | (simp at hd)

/-- An applying run raises no warning. -/
theorem UpdateSequenceProps_no_warning (F : SeqFlagBits) (name : QString) (s : State)
    (title text : String)
    (h : Call.warning title text ∈ (UpdateSequenceProps F name false s).2.calls) :
    Call.warning title text ∈ s.calls := by
  rw [UpdateSequenceProps_calls] at h
  simp only [List.mem_append] at h
  rcases h with (((h | h) | h) | h) | h
  · exact h
  · split_ifs at h <;> simp at h
  · split_ifs at h <;> simp at h
  · split_ifs at h <;> simp at h
  · split_ifs at h <;> simp at h

/-- Without rounding, the parametric embedding is `UpdateSequenceProps`. -/
theorem UpdateSequencePropsWith_exact (F : SeqFlagBits) (name : QString) (dryRun : Bool)
    (s : State) :
    UpdateSequencePropsWith exactArith F name dryRun s = UpdateSequenceProps F name dryRun s :=
  rfl

/-- The calls of an applying run over the arithmetic `A`, in order. -/
theorem UpdateSequencePropsWith_calls (A : FloatArith) (F : SeqFlagBits) (name : QString)
    (s : State) :
    (UpdateSequencePropsWith A F name false s).2.calls =
      s.calls
      ++ (if s.ui.MOVE_SCALE_KEYS = true ∧
            (⟨A.toFloat s.ui.START_TIME.value, A.toFloat s.ui.END_TIME.value⟩ : Range)
              ≠ s.seq.timeRange
          then [Call.AdjustKeysToTimeRange
            ⟨A.toFloat s.ui.START_TIME.value, A.toFloat s.ui.END_TIME.value⟩] else [])
      ++ (if secondsRangeWith A s ≠ s.seq.timeRange
          then Call.SetTimeRange (secondsRangeWith A s) ::
            (if s.hasAnimationContext = true then [Call.UpdateTimeRange] else [])
          else [])
      ++ (if name ≠ s.seq.name then [Call.RenameNode name] else [])
      ++ (if computeSeqFlags F s.ui s.seq.flags ≠ s.seq.flags
          then [Call.SetFlags (computeSeqFlags F s.ui s.seq.flags)] else []) := by
  simp only [UpdateSequencePropsWith, secondsRangeWith, flagsStep_calls, renameStep_calls,
    rangeStep_calls, rescaleStep_calls, renameStep_ui, rangeStep_ui, rescaleStep_ui,
    renameStep_flags, rangeStep_flags, rescaleStep_flags, rangeStep_name, rescaleStep_name,
    rescaleStep_ctx]

/-- A non-negative integer is left as it is by `std::round`. -/
theorem std_round_intCast (n : ℤ) (hn : 0 ≤ n) : std_round (n : ℚ) = n := by
  have h0 : (0 : ℚ) ≤ (n : ℚ) := by exact_mod_cast hn
  have hfl : ⌊(n : ℚ) + 1 / 2⌋ = n := by
    rw [Int.floor_eq_iff]
    constructor <;> norm_num
  simp only [std_round, h0, if_true, hfl]

/-- The spin box after `OnBnClickedToFrames`: an exact frame number within the
bounds is displayed as it is. -/
theorem setValue_frames (fps : ℚ) (_hfps : 0 < fps) (b : QDoubleSpinBox)
    (h0 : b.minimum = 0) (h1 : b.maximum = 100000)
    (hi : ∃ n : ℤ, b.value * fps = n ∧ 0 ≤ n ∧ n ≤ 100000) :
    (b.setValue (std_round (b.value * fps))).value = b.value * fps := by
  obtain ⟨n, hn, hn0, hn1⟩ := hi
  have e0 : (0 : ℚ) ≤ (n : ℚ) := by exact_mod_cast hn0
  have e1 : (n : ℚ) ≤ 100000 := by exact_mod_cast hn1
  simp only [QDoubleSpinBox.setValue, h0, h1, hn, std_round_intCast n hn0]
  rw [min_eq_right e1, max_eq_right e0]

/-- The spin box after `OnBnClickedToSeconds`: a value `v * fps` is displayed
as `v` again. -/
theorem setValue_seconds (fps : ℚ) (hfps : 0 < fps) (v : ℚ) (hv : v ≤ 100000)
    (hi : ∃ n : ℤ, v * fps = n ∧ 0 ≤ n ∧ n ≤ 100000) (b : QDoubleSpinBox)
    (h0 : b.minimum = 0) (h1 : b.maximum = 100000) (hb : b.value = v * fps) :
    (b.setValue (b.value * (1 / fps))).value = v := by
  obtain ⟨n, hn, hn0, _⟩ := hi
  have hne : fps ≠ 0 := ne_of_gt hfps
  have e : v * fps * (1 / fps) = v := by field_simp
  have hv0 : 0 ≤ v := by
    have hp : (0 : ℚ) ≤ v * fps := by rw [hn]; exact_mod_cast hn0
    exact nonneg_of_mul_nonneg_left hp hfps
  simp only [QDoubleSpinBox.setValue, h0, h1, hb, e]
  rw [min_eq_right hv, max_eq_right hv0]
/-- Reading the flag word of the frames state: only the display-unit bit is set. -/
theorem hasFlag_sample (k : EAnimSequenceFlags) :
    hasFlag (BIT (sampleBits eSeqFlags_DisplayAsFramesOrSeconds)) (BIT (sampleBits k))
      = decide (k = eSeqFlags_DisplayAsFramesOrSeconds) := by
  rw [hasFlag_BIT, testBit_BIT]
  cases k <;> decide

/-- The frames state showing `[0, 24]` is what `OnInitDialog` shows for its
sequence, with "move/rescale keys" checked afterwards. -/
theorem framesState_reachable :
    { OnInitDialog sampleBits (framesState 24).seq secondsDialog with MOVE_SCALE_KEYS := true }
      = (framesState 24).ui := by
  have hr0 : std_round 0 = 0 := by
    simpa using std_round_intCast 0 (le_refl 0)
  have hr1 : std_round 24 = 24 := by
    simpa using std_round_intCast 24 (by norm_num)
  simp only [OnInitDialog, initOutOfRange, initTimeRange, initCheckBoxes, framesState,
    sampleSequence, hasFlag_sample]
  simp [setChecked_CUT_SCENE, ToggleCutsceneOptions, secondsDialog, setChecked_TO_FRAMES,
    OnBnClickedToFrames, OnBnClickedToSeconds, setChecked_ORT_ONCE, framesDialog, spinBox,
    QDoubleSpinBox.setRange, QDoubleSpinBox.setValue, QDoubleSpinBox.setSingleStep, hr0, hr1]
  norm_num

/-! ## Claims -/

/-- C1: flag round trip. For every sequence and every state of the checkboxes
and radio buttons the dialog can hold (one button checked in each radio group,
no-abort, no-player and no-sounds unchecked while cutscene is unchecked),
`UpdateSequenceProps` with `dryRun = false` followed by `OnInitDialog` on the
updated sequence (started from any dialog `d0` with at most one button checked
per group) shows the same seven checkboxes, the same time unit and the same
out-of-range selection. -/
theorem C1_flag_round_trip (F : SeqFlagBits) (hF : F.Distinct) (name : QString) (s : State)
    (d0 : CTVSequenceProps) (hr : RadioExclusive s.ui) (hc : CutsceneDependentsOff s.ui)
    (h0 : RadioAtMostOne d0) :
    (OnInitDialog F (UpdateSequenceProps F name false s).2.seq d0).ALWAYS_PLAY = s.ui.ALWAYS_PLAY
    ∧ (OnInitDialog F (UpdateSequenceProps F name false s).2.seq d0).CUT_SCENE = s.ui.CUT_SCENE
    ∧ (OnInitDialog F (UpdateSequenceProps F name false s).2.seq d0).DISABLEPLAYER
        = s.ui.DISABLEPLAYER
    ∧ (OnInitDialog F (UpdateSequenceProps F name false s).2.seq d0).DISABLESOUNDS
        = s.ui.DISABLESOUNDS
    ∧ (OnInitDialog F (UpdateSequenceProps F name false s).2.seq d0).NOSEEK = s.ui.NOSEEK
    ∧ (OnInitDialog F (UpdateSequenceProps F name false s).2.seq d0).NOABORT = s.ui.NOABORT
    ∧ (OnInitDialog F (UpdateSequenceProps F name false s).2.seq d0).EARLYMOVIEUPDATE
        = s.ui.EARLYMOVIEUPDATE
    ∧ (OnInitDialog F (UpdateSequenceProps F name false s).2.seq d0).TO_SECONDS = s.ui.TO_SECONDS
    ∧ (OnInitDialog F (UpdateSequenceProps F name false s).2.seq d0).TO_FRAMES = s.ui.TO_FRAMES
    ∧ (OnInitDialog F (UpdateSequenceProps F name false s).2.seq d0).m_timeUnit
        = (if s.ui.TO_FRAMES = true then TimeUnit.Frames else TimeUnit.Seconds)
    ∧ (OnInitDialog F (UpdateSequenceProps F name false s).2.seq d0).ORT_ONCE = s.ui.ORT_ONCE
    ∧ (OnInitDialog F (UpdateSequenceProps F name false s).2.seq d0).ORT_CONSTANT
        = s.ui.ORT_CONSTANT
    ∧ (OnInitDialog F (UpdateSequenceProps F name false s).2.seq d0).ORT_LOOP = s.ui.ORT_LOOP
    ∧ (OnInitDialog F (UpdateSequenceProps F name false s).2.seq d0).m_outOfRange
        = (if s.ui.ORT_CONSTANT = true then 1 else if s.ui.ORT_LOOP = true then 2 else 0) := by
  generalize hq : (UpdateSequenceProps F name false s).2.seq = q
  have hfl : q.flags = computeSeqFlags F s.ui s.seq.flags := by
    rw [← hq]; exact UpdateSequenceProps_flags F name s
  have hb := computeSeqFlags_bits F hF s.ui s.seq.flags
  have hA := initCheckBoxes_controls F q d0
  have hB := initTimeRange_controls F q (initCheckBoxes F q d0)
    (by rw [hA.2.2.2.2.2.2.2.1, hA.2.2.2.2.2.2.2.2.1]; exact h0.1)
  have hC := initOutOfRange_controls F q (initTimeRange F q (initCheckBoxes F q d0))
    (by
      rw [hB.2.2.2.2.2.2.2.2.2.2.1, hB.2.2.2.2.2.2.2.2.2.2.2.1, hB.2.2.2.2.2.2.2.2.2.2.2.2,
        hA.2.2.2.2.2.2.2.2.2.1, hA.2.2.2.2.2.2.2.2.2.2.1, hA.2.2.2.2.2.2.2.2.2.2.2]
      exact h0.2)
  simp only [OnInitDialog, hC, hB, hA, hasFlag_BIT, hfl, hb]
  unfold RadioExclusive at hr
  unfold CutsceneDependentsOff at hc
  revert hr hc
  cases s.ui.CUT_SCENE <;> cases s.ui.DISABLEPLAYER <;> cases s.ui.DISABLESOUNDS <;>
    cases s.ui.NOABORT <;> cases s.ui.TO_FRAMES <;> cases s.ui.TO_SECONDS <;>
    cases s.ui.ORT_ONCE <;> cases s.ui.ORT_CONSTANT <;> cases s.ui.ORT_LOOP <;> simp

/-- C1 at a concrete input: cutscene, no-player, early-movie-update, Frames and
Loop, written to a sequence without flags and read back into a fresh dialog. -/
theorem C1_flag_round_trip_witness :
    RadioExclusive cutsceneState.ui ∧ CutsceneDependentsOff cutsceneState.ui ∧
    RadioAtMostOne secondsDialog ∧
    (OnInitDialog sampleBits
        (UpdateSequenceProps sampleBits ['n'] false cutsceneState).2.seq
        secondsDialog).CUT_SCENE = true ∧
    (OnInitDialog sampleBits
        (UpdateSequenceProps sampleBits ['n'] false cutsceneState).2.seq
        secondsDialog).ORT_LOOP = true :=
  have h := C1_flag_round_trip sampleBits sampleBits_distinct ['n'] cutsceneState
    secondsDialog (by decide) (by decide) (by decide)
  ⟨by decide, by decide, by decide, h.2.1, h.2.2.2.2.2.2.2.2.2.2.2.2.1⟩

/-- C2: name validation on confirm. `OnOK` rejects the name exactly when it is
empty (first warning) or, being non-empty, contains the character `/` (second
warning); on either rejection the sequence and the dialog are unchanged, the
dialog is not accepted, and the warning is the only call made. A non-empty name
without `/` raises no warning and the dialog is accepted. -/
theorem C2_name_validation (F : SeqFlagBits) (s : State) :
    (s.ui.NAME = [] →
      (OnOK F s).seq = s.seq ∧ (OnOK F s).ui = s.ui ∧
      (OnOK F s).calls = s.calls ++
        [Call.warning "Sequence Properties" "A sequence name cannot be empty!"])
    ∧ (s.ui.NAME ≠ [] → '/' ∈ s.ui.NAME →
      (OnOK F s).seq = s.seq ∧ (OnOK F s).ui = s.ui ∧
      (OnOK F s).calls = s.calls ++
        [Call.warning "Sequence Properties" "A sequence name cannot contain a '/' character!"])
    ∧ (s.ui.NAME ≠ [] → '/' ∉ s.ui.NAME →
      (OnOK F s).ui.accepted = true ∧
      ∀ title text, Call.warning title text ∈ (OnOK F s).calls →
        Call.warning title text ∈ s.calls) := by
  refine ⟨?_, ?_, ?_⟩
  · intro h
    simp [OnOK, h, State.log]
  · intro h1 h2
    simp [OnOK, h1, h2, State.log]
  · intro h1 h2
    have he : s.ui.NAME.isEmpty = false := by simpa using h1
    have hc : s.ui.NAME.contains '/' = false := by simpa using h2
    have hdry : (AreSequencePropsChanged F s.ui.NAME s).2 = s :=
      UpdateSequenceProps_dry F s.ui.NAME s
    unfold OnOK
    simp only [he, hc, Bool.false_eq_true, if_false, hdry]
    refine ⟨trivial, ?_⟩
    intro title text
    split_ifs
    · intro h
      have h1 := UpdateSequenceProps_no_warning F s.ui.NAME _ title text
        (by simpa [State.log] using h)
      simpa [State.log] using h1
    · exact id

/-- C2 at the two names of the claim: the empty name and `a/b` are rejected with
the sequence untouched and the dialog still open. -/
theorem C2_name_validation_witness :
    (OnOK sampleBits (namedState [])).calls
      = [Call.warning "Sequence Properties" "A sequence name cannot be empty!"]
    ∧ (OnOK sampleBits (namedState ['a', '/', 'b'])).calls
      = [Call.warning "Sequence Properties"
          "A sequence name cannot contain a '/' character!"] :=
  ⟨((C2_name_validation sampleBits (namedState [])).1 rfl).2.2,
   ((C2_name_validation sampleBits (namedState ['a', '/', 'b'])).2.1
      (by decide) (by decide)).2.2⟩

/-- C3: the dry run is pure. `AreSequencePropsChanged`, which is
`UpdateSequenceProps` with `dryRun = true`, leaves the sequence (name, flags, time
range), the dialog and the call log as they were: none of
`AdjustKeysToTimeRange`, `SetTimeRange`, `UpdateTimeRange`, `RenameNode`,
`SetFlags` is invoked; only the returned boolean carries information. -/
theorem C3_dry_run_is_pure (F : SeqFlagBits) (name : QString) (s : State) :
    (AreSequencePropsChanged F name s).2 = s
    ∧ (UpdateSequenceProps F name true s).2 = s
    ∧ (AreSequencePropsChanged F name s).2.seq = s.seq
    ∧ (AreSequencePropsChanged F name s).2.ui = s.ui
    ∧ (AreSequencePropsChanged F name s).2.calls = s.calls := by
  have h : (AreSequencePropsChanged F name s).2 = s := UpdateSequenceProps_dry F name s
  exact ⟨h, UpdateSequenceProps_dry F name s, by rw [h], by rw [h], by rw [h]⟩

/-- C4 fails on the code: at 24 fps, with the stored range `[0, 1]` s shown in
unit Frames as `[0, 24]` (the stored range converted to frames, as `OnInitDialog`
shows it) and "move/rescale keys" checked, the dry run reports dirty, and the
applying run invokes `AdjustKeysToTimeRange` with the frame numbers `[0, 24]` and
nothing else. -/
theorem C4_unchanged_frames_range_is_rescaled :
    { OnInitDialog sampleBits (framesState 24).seq secondsDialog with MOVE_SCALE_KEYS := true }
      = (framesState 24).ui
    ∧ (framesState 24).ui.m_timeUnit = TimeUnit.Frames
    ∧ (framesState 24).ui.START_TIME.value
        = (framesState 24).seq.timeRange.start * (framesState 24).ui.m_FPS
    ∧ (framesState 24).ui.END_TIME.value
        = (framesState 24).seq.timeRange.end_ * (framesState 24).ui.m_FPS
    ∧ AreSequencePropsChanged sampleBits ['s', 'e', 'q'] (framesState 24)
        = (true, framesState 24)
    ∧ (UpdateSequenceProps sampleBits ['s', 'e', 'q'] false (framesState 24)).2.calls
        = [Call.AdjustKeysToTimeRange { start := 0, end_ := 24 }] := by
  refine ⟨framesState_reachable, rfl, ?_, ?_, ?_, ?_⟩
  · norm_num [framesState, framesDialog, secondsDialog, sampleSequence, spinBox]
  · norm_num [framesState, framesDialog, secondsDialog, sampleSequence, spinBox]
  · refine Prod.ext ?_ (UpdateSequenceProps_dry _ _ _)
    rw [AreSequencePropsChanged, UpdateSequenceProps_dirty]
    norm_num [framesState, framesDialog, secondsDialog, sampleSequence, spinBox, Range.beq]
  · rw [UpdateSequenceProps_calls, computeSeqFlags_framesState]
    norm_num [framesState, framesDialog, secondsDialog, sampleSequence, spinBox, toSecondsRange]

/-- C5 fails on the code: at 24 fps, with the stored range `[0, 1]` s, unit Frames,
the displayed range `[0, 48]` and "move/rescale keys" checked, the applying run
passes the frame numbers `[0, 48]` to `AdjustKeysToTimeRange`, while the range in
seconds, which `SetTimeRange` receives next, is `[0, 2]`. -/
theorem C5_rescale_receives_frame_numbers :
    (UpdateSequenceProps sampleBits ['s', 'e', 'q'] false (framesState 48)).2.calls
        = [Call.AdjustKeysToTimeRange { start := 0, end_ := 48 },
           Call.SetTimeRange { start := 0, end_ := 2 }, Call.UpdateTimeRange]
    ∧ toSecondsRange (framesState 48).ui { start := 0, end_ := 48 }
        = { start := 0, end_ := 2 } := by
  constructor
  · rw [UpdateSequenceProps_calls, computeSeqFlags_framesState]
    norm_num [framesState, framesDialog, secondsDialog, sampleSequence, spinBox, toSecondsRange]
  · norm_num [framesState, framesDialog, secondsDialog, toSecondsRange]

/-- C6 as stated is false: in unit Seconds, with the stored range `[0, 1]` s, the
displayed range `[0, 2]` and "move/rescale keys" checked, one applying run invokes
`AdjustKeysToTimeRange` and then `SetTimeRange` and `UpdateTimeRange`. -/
theorem C6_rescale_and_range_set_in_one_run :
    secondsState.ui.MOVE_SCALE_KEYS = true
    ∧ (UpdateSequenceProps sampleBits ['s', 'e', 'q'] false secondsState).2.calls
        = [Call.AdjustKeysToTimeRange { start := 0, end_ := 2 },
           Call.SetTimeRange { start := 0, end_ := 2 }, Call.UpdateTimeRange] := by
  refine ⟨rfl, ?_⟩
  rw [UpdateSequenceProps_calls, computeSeqFlags_secondsState]
  simp [secondsState, secondsDialog, sampleSequence, spinBox, toSecondsRange]

/-- C6, amended: with the float arithmetic of the code left open and
`m_FPS > 0` in unit Frames, the calls of an applying run are, in this order: at
most one `AdjustKeysToTimeRange`; then, exactly when the range in seconds that
the code computes differs from the stored range, `SetTimeRange` with that range,
directly followed by `UpdateTimeRange` when an animation context exists; then
only `RenameNode` and `SetFlags`. Whether `SetTimeRange` is invoked does not
depend on "move/rescale keys", so a run that rescales also sets the range. The
bound on `m_FPS` keeps `1.0f / m_FPS` a finite float. -/
theorem C6_range_set_follows_rescale (A : FloatArith) (F : SeqFlagBits) (name : QString)
    (s : State) (_hfps : s.ui.m_timeUnit = TimeUnit.Frames → 0 < s.ui.m_FPS) :
    ∃ before after : List Call,
      (UpdateSequencePropsWith A F name false s).2.calls =
        s.calls ++ before
          ++ (if secondsRangeWith A s ≠ s.seq.timeRange
              then Call.SetTimeRange (secondsRangeWith A s) ::
                (if s.hasAnimationContext = true then [Call.UpdateTimeRange] else [])
              else [])
          ++ after
      ∧ before.length ≤ 1
      ∧ (∀ c ∈ before, ∃ r, c = Call.AdjustKeysToTimeRange r)
      ∧ (∀ c ∈ after, (∃ n, c = Call.RenameNode n) ∨ (∃ f, c = Call.SetFlags f)) := by
  refine ⟨(if s.ui.MOVE_SCALE_KEYS = true ∧
            (⟨A.toFloat s.ui.START_TIME.value, A.toFloat s.ui.END_TIME.value⟩ : Range)
              ≠ s.seq.timeRange
          then [Call.AdjustKeysToTimeRange
            ⟨A.toFloat s.ui.START_TIME.value, A.toFloat s.ui.END_TIME.value⟩] else []),
      (if name ≠ s.seq.name then [Call.RenameNode name] else [])
      ++ (if computeSeqFlags F s.ui s.seq.flags ≠ s.seq.flags
          then [Call.SetFlags (computeSeqFlags F s.ui s.seq.flags)] else []), ?_, ?_, ?_, ?_⟩
  · rw [UpdateSequencePropsWith_calls]
    simp only [List.append_assoc]
  · split_ifs <;> simp
  · intro c hc
    split_ifs at hc
    · exact ⟨_, List.mem_singleton.mp hc⟩
    · simp at hc
  · intro c hc
    rcases List.mem_append.mp hc with h | h
    · split_ifs at h
      · exact Or.inl ⟨_, List.mem_singleton.mp h⟩
      · simp at h
    · split_ifs at h
      · exact Or.inr ⟨_, List.mem_singleton.mp h⟩
      · simp at h

/-- C6, amended, at a concrete input: 24 fps, unit Frames, the stored range
`[0, 1]` s displayed as `[0, 48]` and "move/rescale keys" checked, without
rounding. The calls are the rescale, then `SetTimeRange` with `[0, 2]` and
`UpdateTimeRange`, then nothing. -/
theorem C6_range_set_follows_rescale_witness :
    ((framesState 48).ui.m_timeUnit = TimeUnit.Frames → 0 < (framesState 48).ui.m_FPS)
    ∧ secondsRangeWith exactArith (framesState 48) = { start := 0, end_ := 2 }
    ∧ ∃ before after : List Call,
      (UpdateSequencePropsWith exactArith sampleBits ['s', 'e', 'q'] false
          (framesState 48)).2.calls =
        (framesState 48).calls ++ before
          ++ (if secondsRangeWith exactArith (framesState 48) ≠ (framesState 48).seq.timeRange
              then Call.SetTimeRange (secondsRangeWith exactArith (framesState 48)) ::
                (if (framesState 48).hasAnimationContext = true then [Call.UpdateTimeRange]
                  else [])
              else [])
          ++ after
      ∧ before.length ≤ 1
      ∧ (∀ c ∈ before, ∃ r, c = Call.AdjustKeysToTimeRange r)
      ∧ (∀ c ∈ after, (∃ n, c = Call.RenameNode n) ∨ (∃ f, c = Call.SetFlags f)) :=
  have h : (framesState 48).ui.m_timeUnit = TimeUnit.Frames → 0 < (framesState 48).ui.m_FPS :=
    fun _ => by norm_num [framesState, framesDialog, secondsDialog]
  ⟨h,
   by norm_num [secondsRangeWith, toSecondsRangeWith, exactArith, framesState, framesDialog,
      secondsDialog, spinBox],
   C6_range_set_follows_rescale exactArith sampleBits ['s', 'e', 'q'] (framesState 48) h⟩

/-- C7: out-of-range tri-state to bits. With distinct flag bits and one
out-of-range button checked, the flag word that `UpdateSequenceProps` computes,
which is the flag word of the sequence after an applying run, has the
OutOfRangeConstant bit set and the OutOfRangeLoop bit clear when Constant is
selected, the reverse when Loop is selected, and both clear when Once is selected,
whatever the two bits were before. -/
theorem C7_out_of_range_bits (F : SeqFlagBits) (hF : F.Distinct) (name : QString) (s : State)
    (hr : RadioExclusive s.ui) :
    (UpdateSequenceProps F name false s).2.seq.flags = computeSeqFlags F s.ui s.seq.flags
    ∧ (s.ui.ORT_CONSTANT = true →
        hasFlag (computeSeqFlags F s.ui s.seq.flags) (BIT (F eSeqFlags_OutOfRangeConstant)) = true
        ∧ hasFlag (computeSeqFlags F s.ui s.seq.flags) (BIT (F eSeqFlags_OutOfRangeLoop)) = false)
    ∧ (s.ui.ORT_LOOP = true →
        hasFlag (computeSeqFlags F s.ui s.seq.flags) (BIT (F eSeqFlags_OutOfRangeLoop)) = true
        ∧ hasFlag (computeSeqFlags F s.ui s.seq.flags) (BIT (F eSeqFlags_OutOfRangeConstant))
            = false)
    ∧ (s.ui.ORT_ONCE = true →
        hasFlag (computeSeqFlags F s.ui s.seq.flags) (BIT (F eSeqFlags_OutOfRangeConstant)) = false
        ∧ hasFlag (computeSeqFlags F s.ui s.seq.flags) (BIT (F eSeqFlags_OutOfRangeLoop))
            = false) := by
  have hb := computeSeqFlags_bits F hF s.ui s.seq.flags
  refine ⟨UpdateSequenceProps_flags F name s, ?_, ?_, ?_⟩ <;>
    simp only [hasFlag_BIT, hb] <;>
    rcases hr with ⟨_, h | h | h⟩ <;> simp [h]

/-- C7 at a concrete input: Loop selected over a sequence that had the Constant
bit set. -/
theorem C7_out_of_range_bits_witness :
    RadioExclusive cutsceneDialog ∧
    hasFlag (computeSeqFlags sampleBits cutsceneDialog
      (BIT (sampleBits eSeqFlags_OutOfRangeConstant)))
      (BIT (sampleBits eSeqFlags_OutOfRangeLoop)) = true ∧
    hasFlag (computeSeqFlags sampleBits cutsceneDialog
      (BIT (sampleBits eSeqFlags_OutOfRangeConstant)))
      (BIT (sampleBits eSeqFlags_OutOfRangeConstant)) = false :=
  ⟨by decide,
   (C7_out_of_range_bits sampleBits sampleBits_distinct ['n']
      { seq := sampleSequence (BIT (sampleBits eSeqFlags_OutOfRangeConstant))
        ui := cutsceneDialog, hasAnimationContext := true, calls := [] }
      (by decide)).2.2.1 rfl⟩

/-- C8: display-unit round trip under exact conversion. In exact arithmetic,
for `m_FPS > 0` and spin boxes with the bounds `[0, 100000]` whose displayed
values lie within the bounds and, multiplied by `m_FPS`, are integers within the
bounds, `OnBnClickedToFrames(true)` shows the values multiplied by `m_FPS`, and
`OnBnClickedToSeconds(true)` after it restores the displayed start and end,
the unit Seconds and the step `1 / m_FPS`. -/
theorem C8_frames_seconds_round_trip (d : CTVSequenceProps) (hfps : 0 < d.m_FPS)
    (hs : d.START_TIME.minimum = 0 ∧ d.START_TIME.maximum = 100000
      ∧ d.START_TIME.value ≤ 100000)
    (he : d.END_TIME.minimum = 0 ∧ d.END_TIME.maximum = 100000 ∧ d.END_TIME.value ≤ 100000)
    (hsi : ∃ n : ℤ, d.START_TIME.value * d.m_FPS = n ∧ 0 ≤ n ∧ n ≤ 100000)
    (hei : ∃ n : ℤ, d.END_TIME.value * d.m_FPS = n ∧ 0 ≤ n ∧ n ≤ 100000) :
    (OnBnClickedToFrames true d).START_TIME.value = d.START_TIME.value * d.m_FPS
    ∧ (OnBnClickedToFrames true d).END_TIME.value = d.END_TIME.value * d.m_FPS
    ∧ (OnBnClickedToFrames true d).m_timeUnit = TimeUnit.Frames
    ∧ (OnBnClickedToSeconds true (OnBnClickedToFrames true d)).START_TIME.value
        = d.START_TIME.value
    ∧ (OnBnClickedToSeconds true (OnBnClickedToFrames true d)).END_TIME.value
        = d.END_TIME.value
    ∧ (OnBnClickedToSeconds true (OnBnClickedToFrames true d)).m_timeUnit = TimeUnit.Seconds
    ∧ (OnBnClickedToSeconds true (OnBnClickedToFrames true d)).START_TIME.singleStep
        = 1 / d.m_FPS
    ∧ (OnBnClickedToSeconds true (OnBnClickedToFrames true d)).END_TIME.singleStep
        = 1 / d.m_FPS := by
  obtain ⟨hs0, hs1, hsv⟩ := hs
  obtain ⟨he0, he1, hev⟩ := he
  have hf1 := setValue_frames d.m_FPS hfps (d.START_TIME.setSingleStep 1) hs0 hs1 hsi
  have hf2 := setValue_frames d.m_FPS hfps (d.END_TIME.setSingleStep 1) he0 he1 hei
  have hb1 := setValue_seconds d.m_FPS hfps d.START_TIME.value hsv hsi
    ((d.START_TIME.setSingleStep 1).setValue
      (std_round ((d.START_TIME.setSingleStep 1).value * d.m_FPS)) |>.setSingleStep (1 / d.m_FPS))
    hs0 hs1 hf1
  have hb2 := setValue_seconds d.m_FPS hfps d.END_TIME.value hev hei
    ((d.END_TIME.setSingleStep 1).setValue
      (std_round ((d.END_TIME.setSingleStep 1).value * d.m_FPS)) |>.setSingleStep (1 / d.m_FPS))
    he0 he1 hf2
  exact ⟨hf1, hf2, rfl, hb1, hb2, rfl, rfl, rfl⟩

/-- C8 at the input of the claim: 24 fps, the range `[0, 1]` s goes to the frames
`[0, 24]` and back to `[0, 1]`. -/
theorem C8_frames_seconds_round_trip_witness :
    (OnBnClickedToFrames true secondsDialog).END_TIME.value = 1 * 24
    ∧ (OnBnClickedToSeconds true (OnBnClickedToFrames true secondsDialog)).END_TIME.value = 1 :=
  have h := C8_frames_seconds_round_trip secondsDialog (by norm_num [secondsDialog])
    ⟨rfl, rfl, by norm_num [secondsDialog, spinBox]⟩
    ⟨rfl, rfl, by norm_num [secondsDialog, spinBox]⟩
    ⟨0, by norm_num [secondsDialog, spinBox]⟩
    ⟨24, by norm_num [secondsDialog, spinBox]⟩
  ⟨h.2.1, h.2.2.2.2.1⟩

/-- C9: disabling cutscene clears its dependent options. From every prior state
`ToggleCutsceneOptions(false)` leaves no-abort, no-player and no-sounds unchecked
and disabled and changes nothing else; `ToggleCutsceneOptions(true)` enables the
three controls and changes nothing else, so their checked state stays. -/
theorem C9_toggle_cutscene_options (d : CTVSequenceProps) :
    (ToggleCutsceneOptions false d).NOABORT = false
    ∧ (ToggleCutsceneOptions false d).DISABLEPLAYER = false
    ∧ (ToggleCutsceneOptions false d).DISABLESOUNDS = false
    ∧ (ToggleCutsceneOptions false d).NOABORT_enabled = false
    ∧ (ToggleCutsceneOptions false d).DISABLEPLAYER_enabled = false
    ∧ (ToggleCutsceneOptions false d).DISABLESOUNDS_enabled = false
    ∧ ToggleCutsceneOptions false d =
        { d with NOABORT := false, DISABLEPLAYER := false, DISABLESOUNDS := false
                 NOABORT_enabled := false, DISABLEPLAYER_enabled := false
                 DISABLESOUNDS_enabled := false }
    ∧ (ToggleCutsceneOptions true d).NOABORT = d.NOABORT
    ∧ (ToggleCutsceneOptions true d).DISABLEPLAYER = d.DISABLEPLAYER
    ∧ (ToggleCutsceneOptions true d).DISABLESOUNDS = d.DISABLESOUNDS
    ∧ ToggleCutsceneOptions true d =
        { d with NOABORT_enabled := true, DISABLEPLAYER_enabled := true
                 DISABLESOUNDS_enabled := true } :=
  ⟨rfl, rfl, rfl, rfl, rfl, rfl, rfl, rfl, rfl, rfl, rfl⟩

/-- C10: unmanaged flag bits are preserved. A bit position that is none of the
ten managed ones has, in the flag word `UpdateSequenceProps` computes, in the flag
word of the sequence after an applying run and in every argument the run passes to
`SetFlags`, the value it had in the flag word of the sequence before. -/
theorem C10_unmanaged_bits_preserved (F : SeqFlagBits) (name : QString) (s : State) (i : Nat)
    (hi : ∀ c, F c ≠ i) :
    (computeSeqFlags F s.ui s.seq.flags).testBit i = s.seq.flags.testBit i
    ∧ (UpdateSequenceProps F name false s).2.seq.flags.testBit i = s.seq.flags.testBit i
    ∧ ∀ f, Call.SetFlags f ∈ (UpdateSequenceProps F name false s).2.calls →
        Call.SetFlags f ∈ s.calls ∨ f.testBit i = s.seq.flags.testBit i := by
  have h := computeSeqFlags_unmanaged F s.ui s.seq.flags i hi
  refine ⟨h, ?_, ?_⟩
  · rw [UpdateSequenceProps_flags]; exact h
  · intro f hf
    rw [UpdateSequenceProps_calls] at hf
    simp only [List.mem_append] at hf
    rcases hf with (((hf | hf) | hf) | hf) | hf
    · exact Or.inl hf
    · split_ifs at hf <;> simp at hf
    · split_ifs at hf <;> simp at hf
    · split_ifs at hf <;> simp at hf
    · split_ifs at hf <;> simp at hf
      right
      rw [hf]; exact h

/-- C10 at a concrete input: bit 4, which the sample layout does not use, keeps
its value 1 when the cutscene dialog is applied to the flag word 16. -/
theorem C10_unmanaged_bits_preserved_witness :
    (∀ c, sampleBits c ≠ 4) ∧
    (computeSeqFlags sampleBits cutsceneDialog 16).testBit 4 = true :=
  have hi : ∀ c, sampleBits c ≠ 4 := by intro c; cases c <;> decide
  ⟨hi, (C10_unmanaged_bits_preserved sampleBits ['n']
      { seq := sampleSequence 16, ui := cutsceneDialog, hasAnimationContext := true,
        calls := [] } 4 hi).1.trans (by decide)⟩

end TVSequenceProps
